import Mathlib

/-!
Shallow embedding of the FP kernel math of `src/services/dataService.ts`
(the "FP KERNEL MATH (Ported from FP_cal_v2.py)" section): statistics
primitives, the four indicators K1..K4, the risk aggregation formula, and
the single-signal and multi-signal point analyzers.  JavaScript `number`
values are modelled as real numbers and `Math.sqrt` as `Real.sqrt`.
-/

namespace FPKernel

noncomputable section

/-- Drift classification values (`type DriftStatus`). -/
inductive DriftStatus
  | STABLE
  | MILD_DRIFT
  | MODERATE_DRIFT
  | SEVERE_DRIFT
deriving DecidableEq

/-- Stability classification values (`type StabilityStatus`). -/
inductive StabilityStatus
  | GOOD
  | MARGINAL
  | UNSTABLE
deriving DecidableEq

/-- Boundary classification values (`type BoundaryStatus`). -/
inductive BoundaryStatus
  | YES
  | WARNING
  | NO
deriving DecidableEq

/-- Oscillation classification values (`type OscillationLevel`). -/
inductive OscillationLevel
  | LOW
  | MEDIUM
  | HIGH
deriving DecidableEq

/-- Risk classification values (`type RiskLevel`). -/
inductive RiskLevel
  | LOW
  | MEDIUM
  | HIGH
deriving DecidableEq

/-- Result of `getStats`: `{ mean, std }`. -/
structure Stats where
  mean : ℝ
  std : ℝ

/-- Source `getStats(arr)`: mean and sample standard deviation
(`variance = Σ (b - mean)^2 / max(n - 1, 1)`), `{mean: 0, std: 0}` for an
empty array.  `arr.reduce((a, b) => a + b, 0)` is written as `List.sum`. -/
def getStats (arr : List ℝ) : Stats :=
  if arr.length = 0 then ⟨0.0, 0.0⟩
  else
    let sum := arr.sum
    let mean := sum / (arr.length : ℝ)
    let variance := (arr.map (fun b => (b - mean) ^ 2)).sum / ((max (arr.length - 1) 1 : ℕ) : ℝ)
    ⟨mean, Real.sqrt variance⟩

/-- Source `Math.max(...window)` over a list (only applied to non-empty lists in the
source; the value on `[]` is an arbitrary placeholder). -/
def listMax : List ℝ → ℝ
  | [] => 0
  | x :: xs => xs.foldl max x

/-- Source `Math.min(...window)` over a list (only applied to non-empty lists in the
source; the value on `[]` is an arbitrary placeholder). -/
def listMin : List ℝ → ℝ
  | [] => 0
  | x :: xs => xs.foldl min x

/-- Source `calculateK1Drift(shortVals, longVals, eps)`.  The source default
`eps = 1e-6` is passed explicitly at every call site below. -/
def calculateK1Drift (shortVals longVals : List ℝ) (eps : ℝ) : ℝ :=
  |(getStats shortVals).mean - (getStats longVals).mean| / ((getStats longVals).std + eps)

/-- Source `calculateK2Stability(window, eps)`.  The source default `eps = 1e-6`
is passed explicitly at every call site below. -/
def calculateK2Stability (window : List ℝ) (eps : ℝ) : ℝ :=
  if window.length < 2 then 1.0
  else
    let stdDev := (getStats window).std
    let rVal := listMax window - listMin window
    let instability := stdDev / (rVal + eps)
    1.0 - min 1.0 instability

/-- One step of the `calculateK3Boundary` loop: the `violated` flag for
value `v` given the previous value (if any) and the nullable thresholds. -/
def k3Step (minVal maxVal maxDerivative : Option ℝ) (prev : Option ℝ) (v : ℝ) : Bool :=
  let b1 : Bool :=
    match minVal with
    | some m => if v < m then true else false
    | none => false
  let b2 : Bool :=
    match maxVal with
    | some m => if v > m then true else false
    | none => false
  let b3 : Bool :=
    match prev, maxDerivative with
    | some p, some d => if |v - p| > d then true else false
    | _, _ => false
  b1 || b2 || b3

/-- The `for (const v of values)` loop of `calculateK3Boundary`, counting
violations while carrying the previous value. -/
def k3Count (minVal maxVal maxDerivative : Option ℝ) : List ℝ → Option ℝ → ℕ
  | [], _ => 0
  | v :: rest, prev =>
      (if k3Step minVal maxVal maxDerivative prev v then 1 else 0) +
        k3Count minVal maxVal maxDerivative rest (some v)

/-- Source `calculateK3Boundary(values, minVal, maxVal, maxDerivative)`: the
violation count, with `null` thresholds modelled as `none`. -/
def calculateK3Boundary (values : List ℝ) (minVal maxVal maxDerivative : Option ℝ) : ℕ :=
  if values.length = 0 then 0
  else k3Count minVal maxVal maxDerivative values none

/-- The transition counter of `calculateK4OscillationDynamic`
(`if (states[i] !== states[i-1]) switches++`). -/
def countSwitches : List ℕ → ℕ
  | [] => 0
  | [_] => 0
  | a :: b :: rest => (if b ≠ a then 1 else 0) + countSwitches (b :: rest)

/-- Source `calculateK4OscillationDynamic(shortWindow, longWindow)`. -/
def calculateK4OscillationDynamic (shortWindow longWindow : List ℝ) : ℝ :=
  if shortWindow.length < 2 ∨ longWindow.length = 0 then 0.0
  else
    let muRef := (getStats longWindow).mean
    let states := shortWindow.map (fun v => if v > muRef then (1 : ℕ) else 0)
    let switches := countSwitches states
    let maxSwitches := states.length - 1
    if maxSwitches > 0 then (switches : ℝ) / (maxSwitches : ℝ) else 0.0

/-- Source `calculateRiskScore(...)`: the fixed weighted aggregation formula. -/
def calculateRiskScore (k1_rssi k1_latency k1_txerr k2_rssi k2_latency k2_txerr
    k3_latency k4_latency k4_txerr : ℝ) : ℝ :=
  0.3 * (1 - k2_rssi)
    + 0.3 * (1 - k2_latency)
    + 0.1 * (1 - k2_txerr)
    + 0.05 * (k1_rssi + k1_latency + k1_txerr)
    + 0.05 * (k4_latency + k4_txerr)
    + 0.02 * k3_latency

/-- Source `judgeDrift(score)`. -/
def judgeDrift (score : ℝ) : DriftStatus :=
  if score < 1.0 then .STABLE
  else if score < 2.0 then .MILD_DRIFT
  else if score < 3.0 then .MODERATE_DRIFT
  else .SEVERE_DRIFT

/-- Source `judgeStability(k2_score)`. -/
def judgeStability (k2_score : ℝ) : StabilityStatus :=
  if k2_score > 0.9 then .GOOD
  else if k2_score > 0.7 then .MARGINAL
  else .UNSTABLE

/-- Source `judgeOscillation(k4_score)`. -/
def judgeOscillation (k4_score : ℝ) : OscillationLevel :=
  if k4_score < 0.2 then .LOW
  else if k4_score < 0.5 then .MEDIUM
  else .HIGH

/-- The risk-level thresholding duplicated verbatim in `analyzePoint` and
`analyzeMultiSignalPoint`:
`let overallRisk = "LOW"; if (raw > 0.8) "HIGH"; else if (raw > 0.4) "MEDIUM"`. -/
def classifyRisk (riskScoreRaw : ℝ) : RiskLevel :=
  if riskScoreRaw > 0.8 then .HIGH
  else if riskScoreRaw > 0.4 then .MEDIUM
  else .LOW

/-- The fields of a `TelemetryPoint` record that the kernel reads (all other
fields are never touched by the analyzers).  A missing / non-numeric field is
`none`, matching the `??` fallback chains of `analyzePoint`. -/
structure TelemetryPoint where
  rssi_dBm : Option ℝ
  rx_power_dBm : Option ℝ
  rsrp_dBm : Option ℝ
  latency_p95 : Option ℝ
  loss_rate : Option ℝ
  retry_rate : Option ℝ

/-- Source `d.rssi_dBm ?? d.rx_power_dBm ?? d.rsrp_dBm ?? -60`. -/
def rssiOf (d : TelemetryPoint) : ℝ :=
  d.rssi_dBm.getD (d.rx_power_dBm.getD (d.rsrp_dBm.getD (-60)))

/-- Source `d.latency_p95 ?? 20`. -/
def latOf (d : TelemetryPoint) : ℝ :=
  d.latency_p95.getD 20

/-- Source `d.loss_rate ?? d.retry_rate ?? 0`. -/
def txOf (d : TelemetryPoint) : ℝ :=
  d.loss_rate.getD (d.retry_rate.getD 0)

/-- The union type `TelemetryPoint[] | number[]` accepted by `analyzePoint`. -/
inductive FullData
  | points (l : List TelemetryPoint)
  | nums (l : List ℝ)

/-- Length of the underlying array. -/
def FullData.length : FullData → ℕ
  | .points l => l.length
  | .nums l => l.length

/-- The first `n` entries of the underlying array, as the same kind of data. -/
def FullData.takeFD : FullData → ℕ → FullData
  | .points l, n => .points (l.take n)
  | .nums l, n => .nums (l.take n)

/-- Source `fullData.length > 0 && typeof fullData[0] === 'object'`. -/
def isObjectArray : FullData → Bool
  | .points [] => false
  | .points (_ :: _) => true
  | .nums _ => false

/-- Source `fullData as number[]` in the non-object branch.  For `points l` this
branch is only reachable with `l = []` (otherwise `isObjectArray` is true),
so the empty list is returned there. -/
def numsView : FullData → List ℝ
  | .points _ => []
  | .nums l => l

/-- Source `rssiSeries`: per-point magnitude projection with fallback chain, or the
raw numeric series. -/
def seriesRssi : FullData → List ℝ
  | .points l => l.map rssiOf
  | .nums l => l

/-- Source `latencySeries`: per-point latency projection with default `20`, or the
raw numeric series. -/
def seriesLat : FullData → List ℝ
  | .points l => l.map latOf
  | .nums l => l

/-- Source `txErrSeries`: per-point loss/retry projection with default `0`, or
`data.map(_ => 0)` for raw numeric input. -/
def seriesTx : FullData → List ℝ
  | .points l => l.map txOf
  | .nums l => l.map (fun _ => 0)

/-- Substring test on character lists (`String.prototype.includes`). -/
def charsContain (sub : List Char) : List Char → Bool
  | [] => sub.isPrefixOf []
  | c :: t => sub.isPrefixOf (c :: t) || charsContain sub t

/-- Source `key.includes(sub)`. -/
def strContains (key sub : String) : Bool :=
  charsContain sub.toList key.toList

/-- The `targetSeries` selection of `analyzePoint`: `latency` keys map to the
latency series, `loss`/`err`/`retry` keys to the error series, any other key
to the magnitude series (or to the raw numeric array when the input is not an
object array). -/
def seriesTarget (fullData : FullData) (primaryKey : String) : List ℝ :=
  if strContains primaryKey "latency" then seriesLat fullData
  else if strContains primaryKey "loss" || strContains primaryKey "err"
      || strContains primaryKey "retry" then seriesTx fullData
  else if isObjectArray fullData = false then numsView fullData
  else seriesRssi fullData

/-- Source `series.slice(s, e)` for `0 ≤ s ≤ e`. -/
def jsSlice (series : List ℝ) (s e : ℕ) : List ℝ :=
  (series.take e).drop s

/-- The four windows produced by the `getWindows` helper of `analyzePoint`. -/
structure Windows where
  long : List ℝ
  mid : List ℝ
  short : List ℝ
  current : List ℝ

/-- Source `getWindows(series)`: trailing slices ending at `currentIndex`, with
`start = Math.max(0, currentIndex - size + 1)` written as the truncated
natural subtraction `i + 1 - size`. -/
def getWindows (series : List ℝ) (i longSize midSize shortSize : ℕ) : Windows :=
  { long := jsSlice series (i + 1 - longSize) (i + 1)
    mid := jsSlice series (i + 1 - midSize) (i + 1)
    short := jsSlice series (i + 1 - shortSize) (i + 1)
    current := jsSlice series i (i + 1) }

/-- The scalar fields of a `KernelResult` (everything except the optional
`signals` map, which `analyzePoint` never sets). -/
structure KernelStats where
  driftScore : ℝ
  driftStatus : DriftStatus
  stabilityScore : ℝ
  stabilityStatus : StabilityStatus
  boundaryStatus : BoundaryStatus
  oscillationLevel : OscillationLevel
  overallRisk : RiskLevel
  meanLong : ℝ
  meanMid : ℝ
  meanShort : ℝ
  k1 : ℝ
  k2 : ℝ
  k3 : ℝ
  k4 : ℝ
  riskScore : ℝ

/-- A `KernelResult` as returned by `analyzeMultiSignalPoint`: the scalar
fields plus the per-signal breakdown map. -/
structure KernelResult extends KernelStats where
  signals : List (String × KernelStats)

/-- Body of `analyzePoint` after the validation checks: window extraction,
the four indicators for the three signal roles and for the target series,
risk aggregation and classification.  (The source also computes an unused
`k4_rssi`; it is omitted as dead code.) -/
def analyzePointCore (rssiSeries latencySeries txErrSeries targetSeries : List ℝ)
    (i longSize midSize shortSize : ℕ) : KernelStats :=
  let wRssi := getWindows rssiSeries i longSize midSize shortSize
  let wLat := getWindows latencySeries i longSize midSize shortSize
  let wTx := getWindows txErrSeries i longSize midSize shortSize
  let k1_rssi := calculateK1Drift wRssi.short wRssi.long (1e-6)
  let k1_lat := calculateK1Drift wLat.short wLat.long (1e-6)
  let k1_tx := calculateK1Drift wTx.short wTx.long (1e-6)
  let k2_rssi := calculateK2Stability wRssi.mid (1e-6)
  let k2_lat := calculateK2Stability wLat.mid (1e-6)
  let k2_tx := calculateK2Stability wTx.mid (1e-6)
  let hits_lat := calculateK3Boundary wLat.current (some 0) (some 70) (some 30)
  let k4_lat := calculateK4OscillationDynamic wLat.short wLat.long
  let k4_tx := calculateK4OscillationDynamic wTx.short wTx.long
  let riskScoreRaw := calculateRiskScore k1_rssi k1_lat k1_tx k2_rssi k2_lat k2_tx
    (hits_lat : ℝ) k4_lat k4_tx
  let targetWindows := getWindows targetSeries i longSize midSize shortSize
  let driftScore := calculateK1Drift targetWindows.short targetWindows.long (1e-6)
  let stabilityScore := calculateK2Stability targetWindows.mid (1e-6)
  let oscillationVal := calculateK4OscillationDynamic targetWindows.short targetWindows.long
  let boundaryHits := calculateK3Boundary targetWindows.current none (some 30) (some 20)
  { driftScore := driftScore
    driftStatus := judgeDrift driftScore
    stabilityScore := stabilityScore
    stabilityStatus := judgeStability stabilityScore
    boundaryStatus := if boundaryHits > 0 then .YES else .NO
    oscillationLevel := judgeOscillation oscillationVal
    overallRisk := classifyRisk riskScoreRaw
    meanLong := (getStats targetWindows.long).mean
    meanMid := (getStats targetWindows.mid).mean
    meanShort := (getStats targetWindows.short).mean
    k1 := driftScore
    k2 := stabilityScore
    k3 := (boundaryHits : ℝ)
    k4 := oscillationVal
    riskScore := riskScoreRaw }

/-- Source `analyzePoint(fullData, currentIndex, longSize, midSize, shortSize,
primaryKey)`.  The source defaults are `720, 60, 20, 'rssi_dBm'`; `null`
is modelled as `none`. -/
def analyzePoint (fullData : FullData) (currentIndex : ℤ)
    (longSize midSize shortSize : ℕ) (primaryKey : String) : Option KernelStats :=
  if currentIndex < 0 ∨ currentIndex ≥ ((seriesTarget fullData primaryKey).length : ℤ) then none
  else if currentIndex < (shortSize : ℤ) then none
  else some (analyzePointCore (seriesRssi fullData) (seriesLat fullData) (seriesTx fullData)
    (seriesTarget fullData primaryKey) currentIndex.toNat longSize midSize shortSize)

/-- Source `analyzeMultiSignalPoint(fullData, currentIndex, longSize, midSize,
shortSize)`: three single-signal analyses keyed to the three roles, combined
risk from their k-fields, averaged drift/stability scores, spread-copied
remaining fields from the RSSI sub-result, and the `signals` map. -/
def analyzeMultiSignalPoint (fullData : List TelemetryPoint) (currentIndex : ℤ)
    (longSize midSize shortSize : ℕ) : Option KernelResult :=
  match analyzePoint (.points fullData) currentIndex longSize midSize shortSize "rssi_dBm",
      analyzePoint (.points fullData) currentIndex longSize midSize shortSize "latency_p95",
      analyzePoint (.points fullData) currentIndex longSize midSize shortSize "loss_rate" with
  | some resRssi, some resLat, some resTx =>
      let riskScoreRaw := calculateRiskScore resRssi.k1 resLat.k1 resTx.k1
        resRssi.k2 resLat.k2 resTx.k2 resLat.k3 resLat.k4 resTx.k4
      some { toKernelStats :=
              { resRssi with
                driftScore := (resRssi.driftScore + resLat.driftScore + resTx.driftScore) / 3
                stabilityScore :=
                  (resRssi.stabilityScore + resLat.stabilityScore + resTx.stabilityScore) / 3
                overallRisk := classifyRisk riskScoreRaw
                riskScore := riskScoreRaw }
             signals := [("RSSI", resRssi), ("Latency", resLat), ("TxErr", resTx)] }
  | _, _, _ => none

/-! Spec-side statistics, written from the specification's wording, to be
compared with the source-derived `getStats`. -/

/-- Arithmetic mean as the spec words it (`mean(xs)`). -/
def specMean (xs : List ℝ) : ℝ :=
  xs.sum / (xs.length : ℝ)

/-- Sample standard deviation as the spec words it: square root of the sum of
squared deviations divided by `max(n - 1, 1)`. -/
def specSampleStd (xs : List ℝ) : ℝ :=
  Real.sqrt ((xs.map (fun x => (x - specMean xs) ^ 2)).sum / ((max (xs.length - 1) 1 : ℕ) : ℝ))

/-! Helper lemmas. -/

theorem getStats_eq (arr : List ℝ) : getStats arr = ⟨specMean arr, specSampleStd arr⟩ := by
  cases arr with
  | nil =>
      simp [getStats, specMean, specSampleStd, Real.sqrt_zero]
      norm_num
  | cons x xs => simp [getStats, specMean, specSampleStd]

theorem getStats_std_nonneg (arr : List ℝ) : 0 ≤ (getStats arr).std := by
  rw [getStats_eq]
  exact Real.sqrt_nonneg _

theorem foldl_min_le (x : ℝ) (xs : List ℝ) : xs.foldl min x ≤ x := by
  induction xs generalizing x with
  | nil => exact le_refl x
  | cons a t ih => exact le_trans (ih (min x a)) (min_le_left x a)

theorem le_foldl_max (x : ℝ) (xs : List ℝ) : x ≤ xs.foldl max x := by
  induction xs generalizing x with
  | nil => exact le_refl x
  | cons a t ih => exact le_trans (le_max_left x a) (ih (max x a))

theorem listMin_le_listMax (w : List ℝ) (hw : w ≠ []) : listMin w ≤ listMax w := by
  cases w with
  | nil => exact absurd rfl hw
  | cons x xs =>
      exact le_trans (foldl_min_le x xs) (le_foldl_max x xs)

/-- C4: for non-empty short and long windows the drift indicator returns
`k1 = |mean(short) - mean(long)| / (sampleStd(long) + 1e-6)` with the sample
standard deviation (divisor `max(n-1, 1)`); `judgeDrift` classifies
`< 1.0` as STABLE, `< 2.0` as MILD_DRIFT, `< 3.0` as MODERATE_DRIFT and
everything else as SEVERE_DRIFT; in particular long window
`[10,10,10,10,10]` and short window `[15,15]` give `k1 = 5 / 1e-6 =
5000000`, classified SEVERE_DRIFT. -/
theorem drift_c4 (s l : List ℝ) (hs : s ≠ []) (hl : l ≠ []) :
    calculateK1Drift s l (1e-6) = |specMean s - specMean l| / (specSampleStd l + 1e-6) ∧
    (∀ x : ℝ,
      (judgeDrift x = .STABLE ↔ x < 1.0) ∧
      (judgeDrift x = .MILD_DRIFT ↔ 1.0 ≤ x ∧ x < 2.0) ∧
      (judgeDrift x = .MODERATE_DRIFT ↔ 2.0 ≤ x ∧ x < 3.0) ∧
      (judgeDrift x = .SEVERE_DRIFT ↔ 3.0 ≤ x)) ∧
    calculateK1Drift [15, 15] [10, 10, 10, 10, 10] (1e-6) = 5000000 ∧
    judgeDrift (calculateK1Drift [15, 15] [10, 10, 10, 10, 10] (1e-6)) = .SEVERE_DRIFT := by
  have hconc : calculateK1Drift [15, 15] [10, 10, 10, 10, 10] (1e-6) = 5000000 := by
    rw [calculateK1Drift, getStats_eq, getStats_eq]
    simp only [specMean, specSampleStd]
    norm_num [Real.sqrt_zero]
  refine ⟨?_, ?_, hconc, ?_⟩
  · rw [calculateK1Drift, getStats_eq, getStats_eq]
  · intro x
    rw [judgeDrift]
    split_ifs with h1 h2 h3 <;>
      refine ⟨?_, ?_, ?_, ?_⟩ <;>
      simp <;>
      first
        | (constructor <;> linarith)
        | (intros; linarith)
  · rw [hconc, judgeDrift]
    norm_num

/-- Witness instantiating `drift_c4` at the concrete windows of the claim. -/
theorem drift_c4_witness :
    calculateK1Drift [15, 15] [10, 10, 10, 10, 10] (1e-6) = 5000000 ∧
    judgeDrift (calculateK1Drift [15, 15] [10, 10, 10, 10, 10] (1e-6)) = .SEVERE_DRIFT :=
  ⟨(drift_c4 [15, 15] [10, 10, 10, 10, 10] (by simp) (by simp)).2.2.1,
   (drift_c4 [15, 15] [10, 10, 10, 10, 10] (by simp) (by simp)).2.2.2⟩

/-- C5: a window with fewer than 2 samples yields exactly `1.0`; otherwise
`k2 = 1 - min(1, sampleStd / (max - min + 1e-6))`; for every non-empty
window the result lies in `[0, 1]`. -/
theorem stability_c5 :
    (∀ w : List ℝ, w.length < 2 → calculateK2Stability w (1e-6) = 1.0) ∧
    (∀ w : List ℝ, 2 ≤ w.length →
      calculateK2Stability w (1e-6) =
        1 - min 1 (specSampleStd w / (listMax w - listMin w + 1e-6))) ∧
    (∀ w : List ℝ, w ≠ [] →
      0 ≤ calculateK2Stability w (1e-6) ∧ calculateK2Stability w (1e-6) ≤ 1) := by
  have hlt : ∀ w : List ℝ, w.length < 2 → calculateK2Stability w (1e-6) = 1.0 := by
    intro w hw
    rw [calculateK2Stability, if_pos hw]
  have hge : ∀ w : List ℝ, 2 ≤ w.length →
      calculateK2Stability w (1e-6) =
        1 - min 1 (specSampleStd w / (listMax w - listMin w + 1e-6)) := by
    intro w hw
    rw [calculateK2Stability, if_neg (by omega), getStats_eq]
    norm_num
  refine ⟨hlt, hge, ?_⟩
  intro w hw
  by_cases h2 : w.length < 2
  · rw [hlt w h2]
    norm_num
  · rw [hge w (by omega)]
    have hstd : 0 ≤ specSampleStd w := Real.sqrt_nonneg _
    have hrange : 0 ≤ listMax w - listMin w := by
      have := listMin_le_listMax w hw
      linarith
    have hden : (0 : ℝ) < listMax w - listMin w + 1e-6 := by
      have : (0 : ℝ) < 1e-6 := by norm_num
      linarith
    have hinst : 0 ≤ specSampleStd w / (listMax w - listMin w + 1e-6) :=
      div_nonneg hstd (le_of_lt hden)
    constructor
    · have : min 1 (specSampleStd w / (listMax w - listMin w + 1e-6)) ≤ 1 := min_le_left _ _
      linarith
    · have : 0 ≤ min 1 (specSampleStd w / (listMax w - listMin w + 1e-6)) :=
        le_min (by norm_num) hinst
      linarith

/-- Witness instantiating `stability_c5` on concrete windows. -/
theorem stability_c5_witness :
    calculateK2Stability [42] (1e-6) = 1.0 ∧
    (0 ≤ calculateK2Stability [5, 5, 5] (1e-6) ∧ calculateK2Stability [5, 5, 5] (1e-6) ≤ 1) :=
  ⟨stability_c5.1 [42] (by norm_num),
   stability_c5.2.2 [5, 5, 5] (by simp)⟩

theorem countSwitches_le (L : List ℕ) : countSwitches L ≤ L.length - 1 := by
  match L with
  | [] => simp [countSwitches]
  | [a] => simp [countSwitches]
  | a :: b :: t =>
      have ih := countSwitches_le (b :: t)
      simp only [countSwitches, List.length_cons] at ih ⊢
      split <;> omega

/-- C6: with at least 2 short samples and a non-empty long window, `k4` is
the number of adjacent transitions of the binary states `v > mean(long)`
divided by `len(short) - 1` and lies in `[0, 1]`; otherwise `k4 = 0`. -/
theorem oscillation_c6 :
    (∀ s l : List ℝ, 2 ≤ s.length → l ≠ [] →
      calculateK4OscillationDynamic s l =
          (countSwitches (s.map (fun v => if v > specMean l then 1 else 0)) : ℝ) /
            ((s.length - 1 : ℕ) : ℝ) ∧
        0 ≤ calculateK4OscillationDynamic s l ∧ calculateK4OscillationDynamic s l ≤ 1) ∧
    (∀ s l : List ℝ, s.length < 2 ∨ l = [] → calculateK4OscillationDynamic s l = 0) := by
  constructor
  · intro s l hs hl
    have hform : calculateK4OscillationDynamic s l =
        (countSwitches (s.map (fun v => if v > specMean l then 1 else 0)) : ℝ) /
          ((s.length - 1 : ℕ) : ℝ) := by
      rw [calculateK4OscillationDynamic,
        if_neg (by simp [hl]; omega), getStats_eq]
      simp only [List.length_map]
      rw [if_pos (by omega)]
    refine ⟨hform, ?_, ?_⟩
    · rw [hform]
      have h1 : (0 : ℝ) ≤ (countSwitches (s.map (fun v => if v > specMean l then 1 else 0)) : ℝ) := by
        positivity
      have h2 : (0 : ℝ) ≤ ((s.length - 1 : ℕ) : ℝ) := by positivity
      exact div_nonneg h1 h2
    · rw [hform]
      have hden : (0 : ℝ) < ((s.length - 1 : ℕ) : ℝ) := by
        have : 1 ≤ s.length - 1 := by omega
        exact_mod_cast Nat.lt_of_lt_of_le Nat.zero_lt_one this
      apply div_le_one_of_le₀
      · have hcount := countSwitches_le (s.map (fun v => if v > specMean l then 1 else 0))
        have : countSwitches (s.map (fun v => if v > specMean l then 1 else 0)) ≤ s.length - 1 := by
          simpa using hcount
        exact_mod_cast this
      · exact le_of_lt hden
  · intro s l h
    have hc : s.length < 2 ∨ l.length = 0 := by
      rcases h with h | h
      · exact Or.inl h
      · exact Or.inr (by simp [h])
    rw [calculateK4OscillationDynamic, if_pos hc]
    norm_num

/-- Witness instantiating `oscillation_c6` at concrete windows. -/
theorem oscillation_c6_witness :
    (0 ≤ calculateK4OscillationDynamic [0, 1] [0] ∧
      calculateK4OscillationDynamic [0, 1] [0] ≤ 1) ∧
    calculateK4OscillationDynamic [3] [0] = 0 :=
  ⟨(oscillation_c6.1 [0, 1] [0] (by norm_num) (by simp)).2,
   oscillation_c6.2 [3] [0] (Or.inl (by norm_num))⟩

theorem k3Step_none_le (minVal maxVal maxDerivative : Option ℝ) (p v : ℝ)
    (h : k3Step minVal maxVal maxDerivative none v = true) :
    k3Step minVal maxVal maxDerivative (some p) v = true := by
  simp only [k3Step, Bool.or_eq_true] at h ⊢
  rcases h with (h | h) | h
  · exact Or.inl (Or.inl h)
  · exact Or.inl (Or.inr h)
  · simp at h

theorem k3Count_none_le (minVal maxVal maxDerivative : Option ℝ) (l : List ℝ) (p : ℝ) :
    k3Count minVal maxVal maxDerivative l none ≤
      k3Count minVal maxVal maxDerivative l (some p) := by
  cases l with
  | nil => exact le_refl 0
  | cons v rest =>
      simp only [k3Count]
      have hstep : (if k3Step minVal maxVal maxDerivative none v then 1 else 0) ≤
          (if k3Step minVal maxVal maxDerivative (some p) v then 1 else 0) := by
        by_cases h : k3Step minVal maxVal maxDerivative none v = true
        · rw [if_pos h, if_pos (k3Step_none_le _ _ _ _ _ h)]
        · rw [if_neg h]
          omega
      omega

theorem k3Count_le_append (minVal maxVal maxDerivative : Option ℝ) (u w : List ℝ)
    (p : Option ℝ) :
    k3Count minVal maxVal maxDerivative w none ≤
      k3Count minVal maxVal maxDerivative (u ++ w) p := by
  induction u generalizing p with
  | nil =>
      cases p with
      | none => simp
      | some q => simpa using k3Count_none_le minVal maxVal maxDerivative w q
  | cons a u ih =>
      simp only [List.cons_append, k3Count, List.append_eq]
      have := ih (some a)
      simp only [List.append_eq] at this
      omega

/-- C7: with fixed (nullable) min/max/derivative thresholds the boundary
violation count is monotone under prepending history to the window. -/
theorem boundary_c7 (u w : List ℝ) (minVal maxVal maxDerivative : Option ℝ) :
    calculateK3Boundary w minVal maxVal maxDerivative ≤
      calculateK3Boundary (u ++ w) minVal maxVal maxDerivative := by
  rw [calculateK3Boundary, calculateK3Boundary]
  by_cases hw : w.length = 0
  · rw [if_pos hw]
    exact Nat.zero_le _
  · rw [if_neg hw, if_neg (by
      intro hc
      rw [List.length_append] at hc
      omega)]
    exact k3Count_le_append minVal maxVal maxDerivative u w none

theorem seriesTarget_length (fullData : FullData) (primaryKey : String) :
    (seriesTarget fullData primaryKey).length = fullData.length := by
  cases fullData with
  | points l =>
      rw [seriesTarget]
      split_ifs with h1 h2 h3
      · simp [seriesLat, FullData.length]
      · simp [seriesTx, FullData.length]
      · cases l with
        | nil => simp [numsView, FullData.length]
        | cons a t => simp [isObjectArray] at h3
      · simp [seriesRssi, FullData.length]
  | nums l =>
      rw [seriesTarget]
      split_ifs <;>
        simp [seriesLat, seriesTx, numsView, seriesRssi, FullData.length]

theorem analyzePoint_none_iff (fullData : FullData) (currentIndex : ℤ)
    (longSize midSize shortSize : ℕ) (primaryKey : String) :
    analyzePoint fullData currentIndex longSize midSize shortSize primaryKey = none ↔
      currentIndex < 0 ∨ (fullData.length : ℤ) ≤ currentIndex ∨
        currentIndex < (shortSize : ℤ) := by
  rw [analyzePoint, seriesTarget_length]
  split_ifs with h1 h2
  · simp only [true_iff]
    omega
  · simp only [true_iff]
    omega
  · simp only [reduceCtorEq, false_iff]
    omega

/-- C3: both analyzers return no result (never an exception, which is
intrinsic to the total model) exactly when the index is out of the series
bounds or below the short window length, and a result for every other
index. -/
theorem validation_c3 :
    (∀ (fullData : FullData) (currentIndex : ℤ) (longSize midSize shortSize : ℕ)
        (primaryKey : String),
      analyzePoint fullData currentIndex longSize midSize shortSize primaryKey = none ↔
        currentIndex < 0 ∨ (fullData.length : ℤ) ≤ currentIndex ∨
          currentIndex < (shortSize : ℤ)) ∧
    (∀ (fullData : List TelemetryPoint) (currentIndex : ℤ)
        (longSize midSize shortSize : ℕ),
      analyzeMultiSignalPoint fullData currentIndex longSize midSize shortSize = none ↔
        currentIndex < 0 ∨ (fullData.length : ℤ) ≤ currentIndex ∨
          currentIndex < (shortSize : ℤ)) := by
  refine ⟨analyzePoint_none_iff, ?_⟩
  intro fullData currentIndex longSize midSize shortSize
  by_cases hC : currentIndex < 0 ∨ (fullData.length : ℤ) ≤ currentIndex ∨
      currentIndex < (shortSize : ℤ)
  · have h1 : analyzePoint (.points fullData) currentIndex longSize midSize shortSize
        "rssi_dBm" = none :=
      (analyzePoint_none_iff _ _ _ _ _ _).mpr (by simpa [FullData.length] using hC)
    rw [analyzeMultiSignalPoint, h1]
    simpa using hC
  · have h1 := (analyzePoint_none_iff (.points fullData) currentIndex longSize midSize
      shortSize "rssi_dBm").not
    have h2 := (analyzePoint_none_iff (.points fullData) currentIndex longSize midSize
      shortSize "latency_p95").not
    have h3 := (analyzePoint_none_iff (.points fullData) currentIndex longSize midSize
      shortSize "loss_rate").not
    have hC' : ¬(currentIndex < 0 ∨ ((FullData.points fullData).length : ℤ) ≤ currentIndex ∨
        currentIndex < (shortSize : ℤ)) := by simpa [FullData.length] using hC
    obtain ⟨a, ha⟩ := Option.ne_none_iff_exists'.mp (h1.mpr hC')
    obtain ⟨b, hb⟩ := Option.ne_none_iff_exists'.mp (h2.mpr hC')
    obtain ⟨c, hc⟩ := Option.ne_none_iff_exists'.mp (h3.mpr hC')
    rw [analyzeMultiSignalPoint, ha, hb, hc]
    simpa using hC

theorem getWindows_take (series series' : List ℝ) (i longSize midSize shortSize : ℕ)
    (h : series.take (i + 1) = series'.take (i + 1)) :
    getWindows series i longSize midSize shortSize =
      getWindows series' i longSize midSize shortSize := by
  simp only [getWindows, jsSlice]
  rw [h]

theorem map_take_eq {α β : Type} (f : α → β) (l l' : List α) (n : ℕ)
    (h : l.take n = l'.take n) : (l.map f).take n = (l'.map f).take n := by
  rw [← List.map_take, ← List.map_take, h]

theorem seriesRssi_take (fd fd' : FullData) (n : ℕ) (h : fd.takeFD n = fd'.takeFD n) :
    (seriesRssi fd).take n = (seriesRssi fd').take n := by
  cases fd with
  | points l =>
      cases fd' with
      | points l' =>
          simp only [FullData.takeFD, FullData.points.injEq] at h
          simpa only [seriesRssi] using map_take_eq rssiOf l l' n h
      | nums l' => simp [FullData.takeFD] at h
  | nums l =>
      cases fd' with
      | points l' => simp [FullData.takeFD] at h
      | nums l' =>
          simp only [FullData.takeFD, FullData.nums.injEq] at h
          simpa only [seriesRssi] using h

theorem seriesLat_take (fd fd' : FullData) (n : ℕ) (h : fd.takeFD n = fd'.takeFD n) :
    (seriesLat fd).take n = (seriesLat fd').take n := by
  cases fd with
  | points l =>
      cases fd' with
      | points l' =>
          simp only [FullData.takeFD, FullData.points.injEq] at h
          simpa only [seriesLat] using map_take_eq latOf l l' n h
      | nums l' => simp [FullData.takeFD] at h
  | nums l =>
      cases fd' with
      | points l' => simp [FullData.takeFD] at h
      | nums l' =>
          simp only [FullData.takeFD, FullData.nums.injEq] at h
          simpa only [seriesLat] using h

theorem seriesTx_take (fd fd' : FullData) (n : ℕ) (h : fd.takeFD n = fd'.takeFD n) :
    (seriesTx fd).take n = (seriesTx fd').take n := by
  cases fd with
  | points l =>
      cases fd' with
      | points l' =>
          simp only [FullData.takeFD, FullData.points.injEq] at h
          simpa only [seriesTx] using map_take_eq txOf l l' n h
      | nums l' => simp [FullData.takeFD] at h
  | nums l =>
      cases fd' with
      | points l' => simp [FullData.takeFD] at h
      | nums l' =>
          simp only [FullData.takeFD, FullData.nums.injEq] at h
          simpa only [seriesTx] using map_take_eq (fun _ => (0 : ℝ)) l l' n h

theorem numsView_take (fd fd' : FullData) (n : ℕ) (h : fd.takeFD n = fd'.takeFD n) :
    (numsView fd).take n = (numsView fd').take n := by
  cases fd with
  | points l =>
      cases fd' with
      | points l' => simp [numsView]
      | nums l' => simp [FullData.takeFD] at h
  | nums l =>
      cases fd' with
      | points l' => simp [FullData.takeFD] at h
      | nums l' =>
          simp only [FullData.takeFD, FullData.nums.injEq] at h
          simpa only [numsView] using h

theorem isObjectArray_eq (fd fd' : FullData) (n : ℕ) (hlen : fd.length = fd'.length)
    (h : fd.takeFD n = fd'.takeFD n) : isObjectArray fd = isObjectArray fd' := by
  cases fd with
  | points l =>
      cases fd' with
      | points l' =>
          simp only [FullData.length] at hlen
          cases l <;> cases l' <;> simp_all [isObjectArray]
      | nums l' => simp [FullData.takeFD] at h
  | nums l =>
      cases fd' with
      | points l' => simp [FullData.takeFD] at h
      | nums l' => rfl

theorem seriesTarget_take (fd fd' : FullData) (primaryKey : String) (n : ℕ)
    (hlen : fd.length = fd'.length) (h : fd.takeFD n = fd'.takeFD n) :
    (seriesTarget fd primaryKey).take n = (seriesTarget fd' primaryKey).take n := by
  rw [seriesTarget, seriesTarget, isObjectArray_eq fd fd' n hlen h]
  split_ifs
  · exact seriesLat_take fd fd' n h
  · exact seriesTx_take fd fd' n h
  · exact numsView_take fd fd' n h
  · exact seriesRssi_take fd fd' n h

theorem analyzePointCore_take (r1 r2 r3 r4 s1 s2 s3 s4 : List ℝ)
    (i longSize midSize shortSize : ℕ)
    (h1 : r1.take (i + 1) = s1.take (i + 1)) (h2 : r2.take (i + 1) = s2.take (i + 1))
    (h3 : r3.take (i + 1) = s3.take (i + 1)) (h4 : r4.take (i + 1) = s4.take (i + 1)) :
    analyzePointCore r1 r2 r3 r4 i longSize midSize shortSize =
      analyzePointCore s1 s2 s3 s4 i longSize midSize shortSize := by
  simp only [analyzePointCore]
  rw [getWindows_take r1 s1 i longSize midSize shortSize h1,
    getWindows_take r2 s2 i longSize midSize shortSize h2,
    getWindows_take r3 s3 i longSize midSize shortSize h3,
    getWindows_take r4 s4 i longSize midSize shortSize h4]

/-- C8: every window extracted for target index `i` is the trailing slice
`[max(0, i - size + 1), i + 1)` of the series (here `i + 1 - size` in
truncated natural subtraction), and the analyzer is causal: two equal-length
inputs that agree on entries `0..i` produce identical results at index `i`. -/
theorem causal_c8 :
    (∀ (series : List ℝ) (i longSize midSize shortSize : ℕ),
      (getWindows series i longSize midSize shortSize).long =
          (series.take (i + 1)).drop (i + 1 - longSize) ∧
      (getWindows series i longSize midSize shortSize).mid =
          (series.take (i + 1)).drop (i + 1 - midSize) ∧
      (getWindows series i longSize midSize shortSize).short =
          (series.take (i + 1)).drop (i + 1 - shortSize) ∧
      (getWindows series i longSize midSize shortSize).current =
          (series.take (i + 1)).drop i) ∧
    (∀ (fullData fullData' : FullData) (currentIndex : ℤ)
        (longSize midSize shortSize : ℕ) (primaryKey : String),
      fullData.length = fullData'.length →
      fullData.takeFD (currentIndex.toNat + 1) = fullData'.takeFD (currentIndex.toNat + 1) →
      analyzePoint fullData currentIndex longSize midSize shortSize primaryKey =
        analyzePoint fullData' currentIndex longSize midSize shortSize primaryKey) := by
  constructor
  · intro series i longSize midSize shortSize
    exact ⟨rfl, rfl, rfl, rfl⟩
  · intro fd fd' currentIndex longSize midSize shortSize primaryKey hlen h
    simp only [analyzePoint, seriesTarget_length, hlen]
    split_ifs with h1 h2
    · rfl
    · rfl
    · exact congrArg some (analyzePointCore_take _ _ _ _ _ _ _ _ _ _ _ _
        (seriesRssi_take fd fd' _ h) (seriesLat_take fd fd' _ h)
        (seriesTx_take fd fd' _ h) (seriesTarget_take fd fd' primaryKey _ hlen h))

/-- Witness instantiating `causal_c8` on two concrete series that agree up to
index 2 and differ afterwards. -/
theorem causal_c8_witness :
    (FullData.nums [0, 0, 0, 5]).length = (FullData.nums [0, 0, 0, 7]).length ∧
    (FullData.nums [0, 0, 0, 5]).takeFD ((2 : ℤ).toNat + 1) =
      (FullData.nums [0, 0, 0, 7]).takeFD ((2 : ℤ).toNat + 1) ∧
    analyzePoint (.nums [0, 0, 0, 5]) 2 3 3 2 "rssi_dBm" =
      analyzePoint (.nums [0, 0, 0, 7]) 2 3 3 2 "rssi_dBm" :=
  ⟨rfl, rfl,
   causal_c8.2 (.nums [0, 0, 0, 5]) (.nums [0, 0, 0, 7]) 2 3 3 2 "rssi_dBm" rfl rfl⟩

/-! Concrete evaluation on small inputs, used by the witnesses below. -/

/-- A telemetry point with no kernel-relevant fields set, so every series
projection falls back to its default (`-60`, `20`, `0`). -/
def P0 : TelemetryPoint := ⟨none, none, none, none, none, none⟩

theorem getStats_const3 (x : ℝ) : getStats [x, x, x] = ⟨x, 0⟩ := by
  rw [getStats_eq]
  have hm : specMean [x, x, x] = x := by
    simp [specMean]
    try ring
  have hs : specSampleStd [x, x, x] = 0 := by
    simp [specSampleStd, hm, sub_self]
  rw [hm, hs]

theorem getStats_const2 (x : ℝ) : getStats [x, x] = ⟨x, 0⟩ := by
  rw [getStats_eq]
  have hm : specMean [x, x] = x := by
    simp [specMean]
    try ring
  have hs : specSampleStd [x, x] = 0 := by
    simp [specSampleStd, hm, sub_self]
  rw [hm, hs]

theorem k1_const (x : ℝ) : calculateK1Drift [x, x] [x, x, x] (1e-6) = 0 := by
  rw [calculateK1Drift, getStats_const2, getStats_const3]
  simp

theorem k2_const3 (x : ℝ) : calculateK2Stability [x, x, x] (1e-6) = 1 := by
  rw [calculateK2Stability, if_neg (by norm_num)]
  simp [getStats_const3, listMax, listMin, max_self, min_self]
  have hmin : (1.0 : ℝ) ⊓ 0 = 0 := min_eq_right (by norm_num)
  rw [hmin]
  norm_num

theorem k4_const (x : ℝ) : calculateK4OscillationDynamic [x, x] [x, x, x] = 0 := by
  rw [calculateK4OscillationDynamic, if_neg (by norm_num)]
  simp [getStats_const3, countSwitches]

theorem k3_single_bounds (v : ℝ) (h0 : ¬v < 0) (h70 : ¬v > 70) :
    calculateK3Boundary [v] (some 0) (some 70) (some 30) = 0 := by
  simp [calculateK3Boundary, k3Count, k3Step, h0, h70]

theorem k3_single_target (v : ℝ) (h30 : ¬v > 30) :
    calculateK3Boundary [v] none (some 30) (some 20) = 0 := by
  simp [calculateK3Boundary, k3Count, k3Step, h30]

/-- The `KernelResult` scalars produced for fully constant input series whose
target series is constantly `t` (and whose latency/target current samples
violate no boundary). -/
def constKR (t : ℝ) : KernelStats :=
  { driftScore := 0
    driftStatus := .STABLE
    stabilityScore := 1
    stabilityStatus := .GOOD
    boundaryStatus := .NO
    oscillationLevel := .LOW
    overallRisk := .LOW
    meanLong := t
    meanMid := t
    meanShort := t
    k1 := 0
    k2 := 1
    k3 := 0
    k4 := 0
    riskScore := 0 }

theorem getWindows3 (p q r : ℝ) :
    getWindows [p, q, r] 2 3 3 2 = ⟨[p, q, r], [p, q, r], [q, r], [r]⟩ := rfl

theorem analyzePointCore_const (a b c t : ℝ)
    (hb : calculateK3Boundary [b] (some 0) (some 70) (some 30) = 0)
    (ht : calculateK3Boundary [t] none (some 30) (some 20) = 0) :
    analyzePointCore [a, a, a] [b, b, b] [c, c, c] [t, t, t] 2 3 3 2 = constKR t := by
  simp only [analyzePointCore, getWindows3]
  rw [k1_const, k1_const, k1_const, k2_const3, k2_const3, k2_const3, hb,
    k4_const, k4_const, k1_const, k2_const3, k4_const]
  simp only [ht, getStats_const3, getStats_const2]
  norm_num [constKR, judgeDrift, judgeStability, judgeOscillation, classifyRisk,
    calculateRiskScore]

theorem seriesRssi_P0 : seriesRssi (.points [P0, P0, P0]) = [-60, -60, -60] := by
  simp [seriesRssi, rssiOf, P0]

theorem seriesLat_P0 : seriesLat (.points [P0, P0, P0]) = [20, 20, 20] := by
  simp [seriesLat, latOf, P0]

theorem seriesTx_P0 : seriesTx (.points [P0, P0, P0]) = [0, 0, 0] := by
  simp [seriesTx, txOf, P0]

theorem seriesTarget_P0_rssi :
    seriesTarget (.points [P0, P0, P0]) "rssi_dBm" = [-60, -60, -60] := by
  rw [seriesTarget, if_neg (by decide), if_neg (by decide), if_neg (by decide)]
  exact seriesRssi_P0

theorem seriesTarget_P0_lat :
    seriesTarget (.points [P0, P0, P0]) "latency_p95" = [20, 20, 20] := by
  rw [seriesTarget, if_pos (by decide)]
  exact seriesLat_P0

theorem seriesTarget_P0_loss :
    seriesTarget (.points [P0, P0, P0]) "loss_rate" = [0, 0, 0] := by
  rw [seriesTarget, if_neg (by decide), if_pos (by decide)]
  exact seriesTx_P0

theorem analyzePoint_P0_rssi :
    analyzePoint (.points [P0, P0, P0]) 2 3 3 2 "rssi_dBm" = some (constKR (-60)) := by
  rw [analyzePoint, seriesTarget_P0_rssi, if_neg (by norm_num), if_neg (by norm_num),
    seriesRssi_P0, seriesLat_P0, seriesTx_P0]
  exact congrArg some (analyzePointCore_const (-60) 20 0 (-60)
    (k3_single_bounds 20 (by norm_num) (by norm_num))
    (k3_single_target (-60) (by norm_num)))

theorem analyzePoint_P0_lat :
    analyzePoint (.points [P0, P0, P0]) 2 3 3 2 "latency_p95" = some (constKR 20) := by
  rw [analyzePoint, seriesTarget_P0_lat, if_neg (by norm_num), if_neg (by norm_num),
    seriesRssi_P0, seriesLat_P0, seriesTx_P0]
  exact congrArg some (analyzePointCore_const (-60) 20 0 20
    (k3_single_bounds 20 (by norm_num) (by norm_num))
    (k3_single_target 20 (by norm_num)))

theorem analyzePoint_P0_loss :
    analyzePoint (.points [P0, P0, P0]) 2 3 3 2 "loss_rate" = some (constKR 0) := by
  rw [analyzePoint, seriesTarget_P0_loss, if_neg (by norm_num), if_neg (by norm_num),
    seriesRssi_P0, seriesLat_P0, seriesTx_P0]
  exact congrArg some (analyzePointCore_const (-60) 20 0 0
    (k3_single_bounds 20 (by norm_num) (by norm_num))
    (k3_single_target 0 (by norm_num)))

/-- The multi-signal result on `[P0, P0, P0]` at index 2. -/
def multiKR : KernelResult :=
  { toKernelStats :=
      { constKR (-60) with
        driftScore := 0
        stabilityScore := 1
        overallRisk := .LOW
        riskScore := 0 }
    signals := [("RSSI", constKR (-60)), ("Latency", constKR 20), ("TxErr", constKR 0)] }

theorem analyzeMulti_P0 :
    analyzeMultiSignalPoint [P0, P0, P0] 2 3 3 2 = some multiKR := by
  rw [analyzeMultiSignalPoint, analyzePoint_P0_rssi, analyzePoint_P0_lat, analyzePoint_P0_loss]
  norm_num [multiKR, constKR, calculateRiskScore, classifyRisk]

theorem analyzePoint_some_eq (fullData : FullData) (currentIndex : ℤ)
    (longSize midSize shortSize : ℕ) (primaryKey : String) (r : KernelStats)
    (h : analyzePoint fullData currentIndex longSize midSize shortSize primaryKey = some r) :
    r = analyzePointCore (seriesRssi fullData) (seriesLat fullData) (seriesTx fullData)
      (seriesTarget fullData primaryKey) currentIndex.toNat longSize midSize shortSize := by
  rw [analyzePoint] at h
  by_cases h1 : currentIndex < 0 ∨ currentIndex ≥ ((seriesTarget fullData primaryKey).length : ℤ)
  · rw [if_pos h1] at h
    simp at h
  · rw [if_neg h1] at h
    by_cases h2 : currentIndex < (shortSize : ℤ)
    · rw [if_pos h2] at h
      simp at h
    · rw [if_neg h2] at h
      exact (Option.some.inj h).symm

/-- C1: the aggregate risk score is the fixed weighted formula over the nine
indicator inputs, and both analyzers classify it HIGH above 0.8, MEDIUM
above 0.4 (and at most 0.8), LOW otherwise. -/
theorem risk_c1 :
    (∀ k1_rssi k1_latency k1_txerr k2_rssi k2_latency k2_txerr k3_latency k4_latency
        k4_txerr : ℝ,
      calculateRiskScore k1_rssi k1_latency k1_txerr k2_rssi k2_latency k2_txerr k3_latency
          k4_latency k4_txerr =
        0.30 * (1 - k2_rssi) + 0.30 * (1 - k2_latency) + 0.10 * (1 - k2_txerr)
          + 0.05 * (k1_rssi + k1_latency + k1_txerr) + 0.05 * (k4_latency + k4_txerr)
          + 0.02 * k3_latency) ∧
    (∀ x : ℝ,
      (classifyRisk x = .HIGH ↔ 0.8 < x) ∧
      (classifyRisk x = .MEDIUM ↔ 0.4 < x ∧ x ≤ 0.8) ∧
      (classifyRisk x = .LOW ↔ x ≤ 0.4)) ∧
    (∀ (fullData : FullData) (currentIndex : ℤ) (longSize midSize shortSize : ℕ)
        (primaryKey : String) (r : KernelStats),
      analyzePoint fullData currentIndex longSize midSize shortSize primaryKey = some r →
      r.overallRisk = classifyRisk r.riskScore) ∧
    (∀ (fullData : List TelemetryPoint) (currentIndex : ℤ)
        (longSize midSize shortSize : ℕ) (r : KernelResult),
      analyzeMultiSignalPoint fullData currentIndex longSize midSize shortSize = some r →
      r.overallRisk = classifyRisk r.riskScore) := by
  refine ⟨?_, ?_, ?_, ?_⟩
  · intro k1_rssi k1_latency k1_txerr k2_rssi k2_latency k2_txerr k3_latency k4_latency k4_txerr
    rw [calculateRiskScore]
    ring
  · intro x
    rw [classifyRisk]
    split_ifs with h1 h2 <;>
      refine ⟨?_, ?_, ?_⟩ <;>
      simp <;>
      first
        | (constructor <;> linarith)
        | (intros; linarith)
  · intro fullData currentIndex longSize midSize shortSize primaryKey r h
    obtain rfl := analyzePoint_some_eq _ _ _ _ _ _ _ h
    rfl
  · intro fullData currentIndex longSize midSize shortSize r h
    cases hA : analyzePoint (.points fullData) currentIndex longSize midSize shortSize
        "rssi_dBm" with
    | none =>
        rw [analyzeMultiSignalPoint, hA] at h
        simp at h
    | some a =>
        cases hB : analyzePoint (.points fullData) currentIndex longSize midSize shortSize
            "latency_p95" with
        | none =>
            rw [analyzeMultiSignalPoint, hA, hB] at h
            simp at h
        | some b =>
            cases hC : analyzePoint (.points fullData) currentIndex longSize midSize shortSize
                "loss_rate" with
            | none =>
                rw [analyzeMultiSignalPoint, hA, hB, hC] at h
                simp at h
            | some c =>
                rw [analyzeMultiSignalPoint, hA, hB, hC] at h
                have hX := Option.some.inj h
                subst hX
                rfl

/-- Witness instantiating the analyzer conjuncts of `risk_c1` on concrete
evaluated inputs. -/
theorem risk_c1_witness :
    (constKR (-60)).overallRisk = classifyRisk (constKR (-60)).riskScore ∧
    multiKR.overallRisk = classifyRisk multiKR.riskScore :=
  ⟨risk_c1.2.2.1 (.points [P0, P0, P0]) 2 3 3 2 "rssi_dBm" (constKR (-60)) analyzePoint_P0_rssi,
   risk_c1.2.2.2 [P0, P0, P0] 2 3 3 2 multiKR analyzeMulti_P0⟩

/-- C2: the multi-signal analyzer runs the single-signal analyzer once per
role, recombines the risk from the sub-results' k-fields (k1/k2 of all three,
k3 of latency, k4 of latency and error-rate), averages the drift/stability
scores, and stores the three full sub-results keyed RSSI/Latency/TxErr. -/
theorem multi_c2 (fullData : List TelemetryPoint) (currentIndex : ℤ)
    (longSize midSize shortSize : ℕ) (r : KernelResult)
    (h : analyzeMultiSignalPoint fullData currentIndex longSize midSize shortSize = some r) :
    ∃ a b c : KernelStats,
      analyzePoint (.points fullData) currentIndex longSize midSize shortSize "rssi_dBm" =
          some a ∧
      analyzePoint (.points fullData) currentIndex longSize midSize shortSize "latency_p95" =
          some b ∧
      analyzePoint (.points fullData) currentIndex longSize midSize shortSize "loss_rate" =
          some c ∧
      r.riskScore = calculateRiskScore a.k1 b.k1 c.k1 a.k2 b.k2 c.k2 b.k3 b.k4 c.k4 ∧
      r.driftScore = (a.driftScore + b.driftScore + c.driftScore) / 3 ∧
      r.stabilityScore = (a.stabilityScore + b.stabilityScore + c.stabilityScore) / 3 ∧
      r.signals = [("RSSI", a), ("Latency", b), ("TxErr", c)] := by
  cases hA : analyzePoint (.points fullData) currentIndex longSize midSize shortSize
      "rssi_dBm" with
  | none =>
      rw [analyzeMultiSignalPoint, hA] at h
      simp at h
  | some a =>
      cases hB : analyzePoint (.points fullData) currentIndex longSize midSize shortSize
          "latency_p95" with
      | none =>
          rw [analyzeMultiSignalPoint, hA, hB] at h
          simp at h
      | some b =>
          cases hC : analyzePoint (.points fullData) currentIndex longSize midSize shortSize
              "loss_rate" with
          | none =>
              rw [analyzeMultiSignalPoint, hA, hB, hC] at h
              simp at h
          | some c =>
              rw [analyzeMultiSignalPoint, hA, hB, hC] at h
              have hX := Option.some.inj h
              subst hX
              exact ⟨a, b, c, rfl, rfl, rfl, rfl, rfl, rfl, rfl⟩

/-- Witness instantiating `multi_c2` on a concrete evaluated input. -/
theorem multi_c2_witness :
    analyzeMultiSignalPoint [P0, P0, P0] 2 3 3 2 = some multiKR ∧
    ∃ a b c : KernelStats,
      analyzePoint (.points [P0, P0, P0]) 2 3 3 2 "rssi_dBm" = some a ∧
      analyzePoint (.points [P0, P0, P0]) 2 3 3 2 "latency_p95" = some b ∧
      analyzePoint (.points [P0, P0, P0]) 2 3 3 2 "loss_rate" = some c ∧
      multiKR.riskScore =
          calculateRiskScore a.k1 b.k1 c.k1 a.k2 b.k2 c.k2 b.k3 b.k4 c.k4 ∧
      multiKR.driftScore = (a.driftScore + b.driftScore + c.driftScore) / 3 ∧
      multiKR.stabilityScore = (a.stabilityScore + b.stabilityScore + c.stabilityScore) / 3 ∧
      multiKR.signals = [("RSSI", a), ("Latency", b), ("TxErr", c)] :=
  ⟨analyzeMulti_P0, multi_c2 [P0, P0, P0] 2 3 3 2 multiKR analyzeMulti_P0⟩

theorem analyzePoint_boundaryStatus (fullData : FullData) (currentIndex : ℤ)
    (longSize midSize shortSize : ℕ) (primaryKey : String) (r : KernelStats)
    (h : analyzePoint fullData currentIndex longSize midSize shortSize primaryKey = some r) :
    r.boundaryStatus = .YES ∨ r.boundaryStatus = .NO := by
  obtain rfl := analyzePoint_some_eq _ _ _ _ _ _ _ h
  simp only [analyzePointCore]
  split
  · exact Or.inl rfl
  · exact Or.inr rfl

/-- C9: every returned `boundaryStatus` (top-level and per-signal) is YES or
NO; the WARNING value of the `BoundaryStatus` type is never produced. -/
theorem boundary_status_c9 :
    (∀ (fullData : FullData) (currentIndex : ℤ) (longSize midSize shortSize : ℕ)
        (primaryKey : String) (r : KernelStats),
      analyzePoint fullData currentIndex longSize midSize shortSize primaryKey = some r →
      r.boundaryStatus = .YES ∨ r.boundaryStatus = .NO) ∧
    (∀ (fullData : List TelemetryPoint) (currentIndex : ℤ)
        (longSize midSize shortSize : ℕ) (r : KernelResult),
      analyzeMultiSignalPoint fullData currentIndex longSize midSize shortSize = some r →
      (r.boundaryStatus = .YES ∨ r.boundaryStatus = .NO) ∧
        ∀ p ∈ r.signals, p.2.boundaryStatus = .YES ∨ p.2.boundaryStatus = .NO) := by
  refine ⟨analyzePoint_boundaryStatus, ?_⟩
  intro fullData currentIndex longSize midSize shortSize r h
  cases hA : analyzePoint (.points fullData) currentIndex longSize midSize shortSize
      "rssi_dBm" with
  | none =>
      rw [analyzeMultiSignalPoint, hA] at h
      simp at h
  | some a =>
      cases hB : analyzePoint (.points fullData) currentIndex longSize midSize shortSize
          "latency_p95" with
      | none =>
          rw [analyzeMultiSignalPoint, hA, hB] at h
          simp at h
      | some b =>
          cases hC : analyzePoint (.points fullData) currentIndex longSize midSize shortSize
              "loss_rate" with
          | none =>
              rw [analyzeMultiSignalPoint, hA, hB, hC] at h
              simp at h
          | some c =>
              rw [analyzeMultiSignalPoint, hA, hB, hC] at h
              have hX := Option.some.inj h
              subst hX
              constructor
              · exact analyzePoint_boundaryStatus _ _ _ _ _ _ a hA
              · intro p hp
                simp only [List.mem_cons, List.not_mem_nil, or_false] at hp
                rcases hp with hp | hp | hp <;> subst hp
                · exact analyzePoint_boundaryStatus _ _ _ _ _ _ a hA
                · exact analyzePoint_boundaryStatus _ _ _ _ _ _ b hB
                · exact analyzePoint_boundaryStatus _ _ _ _ _ _ c hC

/-- Witness instantiating `boundary_status_c9` on concrete evaluated inputs. -/
theorem boundary_status_c9_witness :
    ((constKR (-60)).boundaryStatus = .YES ∨ (constKR (-60)).boundaryStatus = .NO) ∧
    ((multiKR.boundaryStatus = .YES ∨ multiKR.boundaryStatus = .NO) ∧
      ∀ p ∈ multiKR.signals, p.2.boundaryStatus = .YES ∨ p.2.boundaryStatus = .NO) :=
  ⟨boundary_status_c9.1 (.points [P0, P0, P0]) 2 3 3 2 "rssi_dBm" (constKR (-60))
      analyzePoint_P0_rssi,
   boundary_status_c9.2 [P0, P0, P0] 2 3 3 2 multiKR analyzeMulti_P0⟩

/-! A second concrete input with a non-constant latency series, showing that
the multi-signal top-level `k1` (RSSI drift) and `driftScore` (three-signal
average) can disagree. -/

/-- A telemetry point with constant RSSI and loss but varying latency. -/
def Q (y : ℝ) : TelemetryPoint := ⟨some 0, none, none, some y, some 0, none⟩

theorem getStats_mean (arr : List ℝ) : (getStats arr).mean = specMean arr := by
  rw [getStats_eq]

theorem gsLat : getStats [-1, 0, 1] = ⟨0, 1⟩ := by
  rw [getStats_eq]
  have hm : specMean [(-1 : ℝ), 0, 1] = 0 := by
    norm_num [specMean]
  have hs : specSampleStd [(-1 : ℝ), 0, 1] = 1 := by
    rw [specSampleStd, hm]
    norm_num
  rw [hm, hs]

theorem k1_lat_mix : calculateK1Drift [0, 1] [-1, 0, 1] (1e-6) = (1 / 2) / (1 + 1e-6) := by
  rw [calculateK1Drift, getStats_eq, gsLat]
  have h1 : specMean [(0 : ℝ), 1] = 1 / 2 := by
    norm_num [specMean]
  simp only [h1]
  rw [show |(1 : ℝ) / 2 - 0| = 1 / 2 by
    rw [sub_zero]
    exact abs_of_nonneg (by norm_num)]

theorem k2_lat_mix : calculateK2Stability [-1, 0, 1] (1e-6) = 1 - 1 / (2 + 1e-6) := by
  rw [calculateK2Stability, if_neg (by norm_num), gsLat]
  have hmax : listMax [(-1 : ℝ), 0, 1] = 1 := by
    have h1 : max (-1 : ℝ) 0 = 0 := max_eq_right (by norm_num)
    have h2 : max (0 : ℝ) 1 = 1 := max_eq_right (by norm_num)
    simp [listMax, List.foldl, h1, h2]
  have hmin : listMin [(-1 : ℝ), 0, 1] = -1 := by
    have h1 : min (-1 : ℝ) 0 = -1 := min_eq_left (by norm_num)
    have h2 : min (-1 : ℝ) 1 = -1 := min_eq_left (by norm_num)
    simp [listMin, List.foldl, h1, h2]
  simp only [hmax, hmin]
  have hrange : (1 : ℝ) - -1 + 1e-6 = 2 + 1e-6 := by norm_num
  rw [hrange, min_eq_right (by norm_num : (1 : ℝ) / (2 + 1e-6) ≤ 1.0)]
  norm_num

theorem k4_lat_mix : calculateK4OscillationDynamic [0, 1] [-1, 0, 1] = 1 := by
  rw [calculateK4OscillationDynamic, if_neg (by norm_num), gsLat]
  norm_num [countSwitches]

/-- The shared internal risk score on the mixed input below (identical for
the three sub-analyses, which all see the same three series). -/
def mixRS : ℝ :=
  calculateRiskScore 0 ((1 / 2) / (1 + 1e-6)) 0 1 (1 - 1 / (2 + 1e-6)) 1 0 1 0

/-- The sub-result on the mixed input for a constant-zero target series. -/
def zeroKR : KernelStats :=
  { driftScore := 0
    driftStatus := .STABLE
    stabilityScore := 1
    stabilityStatus := .GOOD
    boundaryStatus := .NO
    oscillationLevel := .LOW
    overallRisk := .LOW
    meanLong := 0
    meanMid := 0
    meanShort := 0
    k1 := 0
    k2 := 1
    k3 := 0
    k4 := 0
    riskScore := mixRS }

/-- The sub-result on the mixed input for the latency target series. -/
def latKR : KernelStats :=
  { driftScore := (1 / 2) / (1 + 1e-6)
    driftStatus := .STABLE
    stabilityScore := 1 - 1 / (2 + 1e-6)
    stabilityStatus := .UNSTABLE
    boundaryStatus := .NO
    oscillationLevel := .HIGH
    overallRisk := .LOW
    meanLong := 0
    meanMid := 0
    meanShort := 1 / 2
    k1 := (1 / 2) / (1 + 1e-6)
    k2 := 1 - 1 / (2 + 1e-6)
    k3 := 0
    k4 := 1
    riskScore := mixRS }

theorem analyzePointCore_mix_zero :
    analyzePointCore [0, 0, 0] [-1, 0, 1] [0, 0, 0] [0, 0, 0] 2 3 3 2 = zeroKR := by
  simp only [analyzePointCore, getWindows3, k1_const, k1_lat_mix, k2_const3, k2_lat_mix,
    k4_const, k4_lat_mix, getStats_const3, getStats_const2,
    k3_single_bounds 1 (by norm_num) (by norm_num), k3_single_target 0 (by norm_num)]
  norm_num [zeroKR, mixRS, judgeDrift, judgeStability, judgeOscillation, classifyRisk,
    calculateRiskScore]

theorem analyzePointCore_mix_lat :
    analyzePointCore [0, 0, 0] [-1, 0, 1] [0, 0, 0] [-1, 0, 1] 2 3 3 2 = latKR := by
  simp only [analyzePointCore, getWindows3, k1_const, k1_lat_mix, k2_const3, k2_lat_mix,
    k4_const, k4_lat_mix, getStats_mean, gsLat,
    k3_single_bounds 1 (by norm_num) (by norm_num), k3_single_target 1 (by norm_num)]
  norm_num [latKR, mixRS, judgeDrift, judgeStability, judgeOscillation, classifyRisk,
    calculateRiskScore, specMean]

theorem seriesRssi_Q : seriesRssi (.points [Q (-1), Q 0, Q 1]) = [0, 0, 0] := by
  simp [seriesRssi, rssiOf, Q]

theorem seriesLat_Q : seriesLat (.points [Q (-1), Q 0, Q 1]) = [-1, 0, 1] := by
  simp [seriesLat, latOf, Q]

theorem seriesTx_Q : seriesTx (.points [Q (-1), Q 0, Q 1]) = [0, 0, 0] := by
  simp [seriesTx, txOf, Q]

theorem seriesTarget_Q_rssi :
    seriesTarget (.points [Q (-1), Q 0, Q 1]) "rssi_dBm" = [0, 0, 0] := by
  rw [seriesTarget, if_neg (by decide), if_neg (by decide), if_neg (by decide)]
  exact seriesRssi_Q

theorem seriesTarget_Q_lat :
    seriesTarget (.points [Q (-1), Q 0, Q 1]) "latency_p95" = [-1, 0, 1] := by
  rw [seriesTarget, if_pos (by decide)]
  exact seriesLat_Q

theorem seriesTarget_Q_loss :
    seriesTarget (.points [Q (-1), Q 0, Q 1]) "loss_rate" = [0, 0, 0] := by
  rw [seriesTarget, if_neg (by decide), if_pos (by decide)]
  exact seriesTx_Q

theorem analyzePoint_Q_rssi :
    analyzePoint (.points [Q (-1), Q 0, Q 1]) 2 3 3 2 "rssi_dBm" = some zeroKR := by
  rw [analyzePoint, seriesTarget_Q_rssi, if_neg (by norm_num), if_neg (by norm_num),
    seriesRssi_Q, seriesLat_Q, seriesTx_Q]
  exact congrArg some analyzePointCore_mix_zero

theorem analyzePoint_Q_lat :
    analyzePoint (.points [Q (-1), Q 0, Q 1]) 2 3 3 2 "latency_p95" = some latKR := by
  rw [analyzePoint, seriesTarget_Q_lat, if_neg (by norm_num), if_neg (by norm_num),
    seriesRssi_Q, seriesLat_Q, seriesTx_Q]
  exact congrArg some analyzePointCore_mix_lat

theorem analyzePoint_Q_loss :
    analyzePoint (.points [Q (-1), Q 0, Q 1]) 2 3 3 2 "loss_rate" = some zeroKR := by
  rw [analyzePoint, seriesTarget_Q_loss, if_neg (by norm_num), if_neg (by norm_num),
    seriesRssi_Q, seriesLat_Q, seriesTx_Q]
  exact congrArg some analyzePointCore_mix_zero

/-- The multi-signal result on `[Q (-1), Q 0, Q 1]` at index 2. -/
def mixMulti : KernelResult :=
  { toKernelStats :=
      { zeroKR with
        driftScore := (zeroKR.driftScore + latKR.driftScore + zeroKR.driftScore) / 3
        stabilityScore :=
          (zeroKR.stabilityScore + latKR.stabilityScore + zeroKR.stabilityScore) / 3
        overallRisk := classifyRisk (calculateRiskScore zeroKR.k1 latKR.k1 zeroKR.k1
          zeroKR.k2 latKR.k2 zeroKR.k2 latKR.k3 latKR.k4 zeroKR.k4)
        riskScore := calculateRiskScore zeroKR.k1 latKR.k1 zeroKR.k1
          zeroKR.k2 latKR.k2 zeroKR.k2 latKR.k3 latKR.k4 zeroKR.k4 }
    signals := [("RSSI", zeroKR), ("Latency", latKR), ("TxErr", zeroKR)] }

theorem analyzeMulti_Q :
    analyzeMultiSignalPoint [Q (-1), Q 0, Q 1] 2 3 3 2 = some mixMulti := by
  rw [analyzeMultiSignalPoint, analyzePoint_Q_rssi, analyzePoint_Q_lat, analyzePoint_Q_loss]
  rfl

/-- C10: in every multi-signal result the fields k1..k4, the four discrete
statuses and the three window means are copied unchanged from the RSSI
sub-result (only driftScore, stabilityScore, riskScore, overallRisk and
signals are overridden), so the top-level k1 can differ from the top-level
driftScore, as witnessed on a concrete input. -/
theorem frame_c10 :
    (∀ (fullData : List TelemetryPoint) (currentIndex : ℤ)
        (longSize midSize shortSize : ℕ) (r : KernelResult),
      analyzeMultiSignalPoint fullData currentIndex longSize midSize shortSize = some r →
      ∃ a : KernelStats,
        analyzePoint (.points fullData) currentIndex longSize midSize shortSize "rssi_dBm" =
            some a ∧
        r.k1 = a.k1 ∧ r.k2 = a.k2 ∧ r.k3 = a.k3 ∧ r.k4 = a.k4 ∧
        r.driftStatus = a.driftStatus ∧ r.stabilityStatus = a.stabilityStatus ∧
        r.boundaryStatus = a.boundaryStatus ∧ r.oscillationLevel = a.oscillationLevel ∧
        r.meanLong = a.meanLong ∧ r.meanMid = a.meanMid ∧ r.meanShort = a.meanShort) ∧
    (∃ (fullData : List TelemetryPoint) (currentIndex : ℤ) (r : KernelResult),
      analyzeMultiSignalPoint fullData currentIndex 3 3 2 = some r ∧
        r.k1 ≠ r.driftScore) := by
  constructor
  · intro fullData currentIndex longSize midSize shortSize r h
    cases hA : analyzePoint (.points fullData) currentIndex longSize midSize shortSize
        "rssi_dBm" with
    | none =>
        rw [analyzeMultiSignalPoint, hA] at h
        simp at h
    | some a =>
        cases hB : analyzePoint (.points fullData) currentIndex longSize midSize shortSize
            "latency_p95" with
        | none =>
            rw [analyzeMultiSignalPoint, hA, hB] at h
            simp at h
        | some b =>
            cases hC : analyzePoint (.points fullData) currentIndex longSize midSize shortSize
                "loss_rate" with
            | none =>
                rw [analyzeMultiSignalPoint, hA, hB, hC] at h
                simp at h
            | some c =>
                rw [analyzeMultiSignalPoint, hA, hB, hC] at h
                have hX := Option.some.inj h
                subst hX
                exact ⟨a, rfl, rfl, rfl, rfl, rfl, rfl, rfl, rfl, rfl, rfl, rfl, rfl⟩
  · refine ⟨[Q (-1), Q 0, Q 1], 2, mixMulti, analyzeMulti_Q, ?_⟩
    norm_num [mixMulti, zeroKR, latKR]

/-- Witness instantiating the frame part of `frame_c10` on a concrete
evaluated input. -/
theorem frame_c10_witness :
    ∃ a : KernelStats,
      analyzePoint (.points [P0, P0, P0]) 2 3 3 2 "rssi_dBm" = some a ∧
      multiKR.k1 = a.k1 ∧ multiKR.k2 = a.k2 ∧ multiKR.k3 = a.k3 ∧ multiKR.k4 = a.k4 ∧
      multiKR.driftStatus = a.driftStatus ∧ multiKR.stabilityStatus = a.stabilityStatus ∧
      multiKR.boundaryStatus = a.boundaryStatus ∧
      multiKR.oscillationLevel = a.oscillationLevel ∧
      multiKR.meanLong = a.meanLong ∧ multiKR.meanMid = a.meanMid ∧
      multiKR.meanShort = a.meanShort :=
  frame_c10.1 [P0, P0, P0] 2 3 3 2 multiKR analyzeMulti_P0

end

end FPKernel
